import Mathlib

/-!
Shallow embedding of src/llm_mcp_web_automation.py (Interactive LLM-Driven
Persona and Task Generation System) and proofs about its behaviour.

The pure logic of the Python module is translated definition by definition:
persona classification, rule-based and text-generation task construction, and
the automation engine (TiraAutomation methods plus InteractiveDemo's task
execution loop).  Browser effects are represented by a PageEnv record that
fixes what the page-interaction layer would return (element lookups, visible
cards, button visibility, raised timeouts); the mutable fields of
TiraAutomation (current_products and the stats dictionary) form the AState
record that every operation threads explicitly.
-/

namespace LLMShop

/-- Bool test that a character list begins with another character list. -/
def startsWithChars : List Char → List Char → Bool
  | _, [] => true
  | [], _ :: _ => false
  | a :: as, b :: bs => a == b && startsWithChars as bs

/-- Bool test that a character list occurs contiguously inside another;
used to model the Python substring operator on strings. -/
def containsChars : List Char → List Char → Bool
  | [], needle => needle.isEmpty
  | a :: t, needle => startsWithChars (a :: t) needle || containsChars t needle

/-- Python `needle in hay` on strings. -/
def pyIn (needle hay : String) : Bool :=
  containsChars hay.data needle.data

/-- Python str.lower, character by character (the inputs of this program
are ASCII, where Python lower and per-character lowering agree). -/
def lowerString (s : String) : String :=
  ⟨s.data.map Char.toLower⟩

/-- Python str.strip: whitespace removed from both ends. -/
def trimString (s : String) : String :=
  ⟨((s.data.dropWhile Char.isWhitespace).reverse.dropWhile Char.isWhitespace).reverse⟩

/-- Python slicing s[:n]. -/
def takeString (s : String) (n : Nat) : String :=
  ⟨s.data.take n⟩

/-- Python sep.join(parts). -/
def joinWith (sep : String) : List String → String
  | [] => ""
  | [x] => x
  | x :: y :: rest => x ++ sep ++ joinWith sep (y :: rest)

/-- Python list indexing semantics: a non-negative index reads from the
front, a negative index at least -len reads from the end, and anything
below -len is an IndexError (modelled as none). -/
def pyIndex {α : Type} (l : List α) (i : Int) : Option α :=
  if 0 ≤ i then l.get? i.toNat
  else if (l.length : Int) + i < 0 then none
  else l.get? (((l.length : Int) + i)).toNat

/-- PersonaType enumeration from the source. -/
inductive PersonaType where
  | beauty_enthusiast
  | budget_shopper
  | indecisive_shopper
  | luxury_buyer
  | gift_shopper
  | skincare_focused
  | custom
deriving Repr, DecidableEq

/-- CustomPersona dataclass.  The field for the classification result is
named ptype here because the Python field name is the word type. -/
structure CustomPersona where
  name : String
  ptype : PersonaType
  budget_range : Int × Int
  personality_traits : List String
  interests : List String
  shopping_goals : List String
  decision_style : String
  time_preference : String
deriving Repr, DecidableEq

/-- The lower-cased space-joined trait text scanned by the classifier,
from PersonaCreator._determine_persona_type. -/
def trait_text (traits : List String) : String :=
  lowerString (joinWith " " traits)

/-- Keyword groups of PersonaCreator._determine_persona_type, in source
order. -/
def budget_words : List String := ["budget", "cheap", "affordable", "price"]

def luxury_words : List String := ["luxury", "premium", "high-end", "quality"]

def indecisive_words : List String := ["indecis", "uncertain", "changeable"]

def beauty_words : List String := ["beauty", "makeup", "trendy", "impulsive"]

def skincare_words : List String := ["skincare", "routine", "organic"]

def gift_words : List String := ["gift", "birthday", "present"]

/-- Python `any(word in trait_text for word in words)`. -/
def hitsAny (words : List String) (t : String) : Bool :=
  words.any (fun w => pyIn w t)

/-- PersonaCreator._determine_persona_type.  The decision_style argument is
accepted but never read, exactly as in the source. -/
def determine_persona_type (traits : List String) (decision_style : String) :
    PersonaType :=
  let t := trait_text traits
  if hitsAny budget_words t then PersonaType.budget_shopper
  else if hitsAny luxury_words t then PersonaType.luxury_buyer
  else if hitsAny indecisive_words t then PersonaType.indecisive_shopper
  else if hitsAny beauty_words t then PersonaType.beauty_enthusiast
  else if hitsAny skincare_words t then PersonaType.skincare_focused
  else if hitsAny gift_words t then PersonaType.gift_shopper
  else PersonaType.custom

/-- LLMTask dataclass. -/
structure LLMTask where
  task_name : String
  description : String
  expected_functions : List String
  success_criteria : String
  emotional_journey : List String
deriving Repr, DecidableEq

/-- One entry of the parsed tasks array of a text-generation response, as
read by TaskGenerationEngine._llm_generate_tasks: a dictionary whose keys
may each be absent. -/
structure TaskData where
  task_name : Option String := none
  description : Option String := none
  expected_functions : Option (List String) := none
  success_criteria : Option String := none
  emotional_journey : Option (List String) := none
deriving Repr, DecidableEq

/-- Construction of an LLMTask from one parsed entry, with the default
values taken by the task_data.get calls in _llm_generate_tasks. -/
def taskFromData (d : TaskData) : LLMTask :=
  { task_name := d.task_name.getD "Shopping Task"
    description := d.description.getD "Complete shopping goal"
    expected_functions := d.expected_functions.getD ["search_products"]
    success_criteria := d.success_criteria.getD "Task completed"
    emotional_journey := d.emotional_journey.getD ["curious"] }

/-- The Quick Product Discovery task emitted by
TaskGenerationEngine._rule_generate_tasks for a quick_impulsive persona,
parameterised by interests[0]. -/
def quick_discovery_task (interest : String) : LLMTask :=
  { task_name := "Quick Product Discovery"
    description := "Find and quickly purchase " ++ interest ++ " items"
    expected_functions := ["search_products", "extract_products", "hover_add_to_cart"]
    success_criteria := "At least 1 item added to cart"
    emotional_journey := ["excited", "satisfied"] }

/-- The Careful Product Research task emitted for every other
decision style, parameterised by interests[0]. -/
def careful_research_task (interest : String) : LLMTask :=
  { task_name := "Careful Product Research"
    description := "Research " ++ interest ++ " options thoroughly"
    expected_functions := ["search_products", "extract_products", "click_product_details"]
    success_criteria := "Product details examined"
    emotional_journey := ["curious", "confident"] }

/-- The extra Budget-Conscious Shopping task emitted when the joined
lower-cased traits contain the word budget. -/
def budget_conscious_task : LLMTask :=
  { task_name := "Budget-Conscious Shopping"
    description := "Find affordable options within budget constraints"
    expected_functions := ["search_products", "view_cart"]
    success_criteria := "Stay within budget limits"
    emotional_journey := ["cautious", "satisfied"] }

/-- TaskGenerationEngine._rule_generate_tasks.  Both branches of the first
append read persona.interests[0], so an empty interests list raises an
IndexError in Python; that is modelled as none. -/
def rule_generate_tasks (p : CustomPersona) : Option (List LLMTask) :=
  match p.interests with
  | [] => none
  | interest :: _ =>
    some
      ((if p.decision_style = "quick_impulsive" then [quick_discovery_task interest]
        else [careful_research_task interest]) ++
       (if pyIn "budget" (trait_text p.personality_traits) then [budget_conscious_task]
        else []))

/-- TaskGenerationEngine._llm_generate_tasks.  The outbound chat call, the
regex search for a JSON object and json.loads are external; the argument
parsed is some ts when a JSON object was found and parsed with ts the value
of data.get with key tasks (possibly the empty list), and none when no JSON
object was found in the response or any exception was raised, both of which
reach the rule-based fallback in the source. -/
def llm_generate_tasks (p : CustomPersona) (parsed : Option (List TaskData)) :
    Option (List LLMTask) :=
  match parsed with
  | some ts => some (ts.map taskFromData)
  | none => rule_generate_tasks p

/-- TaskGenerationEngine.generate_shopping_tasks: dispatches to the
text-generation path when a client is configured, else to the rule-based
path. -/
def generate_shopping_tasks (p : CustomPersona) (hasClient : Bool)
    (parsed : Option (List TaskData)) : Option (List LLMTask) :=
  if hasClient then llm_generate_tasks p parsed
  else rule_generate_tasks p

/-- One product record built by TiraAutomation.extract_products.  The
Selenium element handle carried alongside name, price and index in the
source is an opaque page object with no bearing on the modelled state, so
it is omitted here. -/
structure Product where
  name : String
  price : Nat
  index : Nat
deriving Repr, DecidableEq

/-- The readable data of one product card: the stripped text of its name
element, and the result of the currency regex over its price text
(priceMatch is some n when the regex matched the digit group n, none when
it did not match, in which case the source falls back to price 0). -/
structure CardData where
  nameText : String
  priceMatch : Option Nat := none
deriving Repr, DecidableEq

/-- One product card as the page-interaction layer reports it: whether it
is displayed, and the card data, with none meaning the name or price
element lookup inside the per-card try block raises (the card is then
skipped by the source). -/
structure Card where
  displayed : Bool
  parse : Option CardData := none
deriving Repr, DecidableEq

/-- Fixed description of everything the page-interaction layer would
return during a session: the outcome of each element lookup, the visible
product cards, and the index drawn by random.choice. -/
structure PageEnv where
  searchInputOk : Bool := true
  cards : List Card := []
  extractThrows : Bool := false
  addButtonVisible : Bool := true
  hoverThrows : Bool := false
  cartPageItems : Nat := 0
  viewCartThrows : Bool := false
  removeBtnsPresent : Bool := false
  removeClickThrows : Bool := false
  randChoice : Nat := 0
deriving Repr, DecidableEq

/-- The result dictionaries returned by the TiraAutomation methods: a
success flag plus the optional keys any of them attaches. -/
structure PyResult where
  success : Bool
  error : Option String := none
  products : Option (List Product) := none
  count : Option Nat := none
  item_count : Option Nat := none
deriving Repr, DecidableEq

/-- The mutable fields of TiraAutomation: current_products and the stats
dictionary with keys actions, success and cart_items. -/
structure AState where
  current_products : List Product := []
  actions : Nat := 0
  success : Nat := 0
  cart_items : Int := 0
deriving Repr, DecidableEq

/-- TiraAutomation state right after construction. -/
def initialAutomationState : AState := {}

/-- TiraAutomation._update_stats. -/
def update_stats (s : AState) (succeeded : Bool) : AState :=
  { s with
    actions := s.actions + 1
    success := if succeeded then s.success + 1 else s.success }

/-- TiraAutomation.search_products: finds the search input (or times out),
types the term and submits; the persona and the term only drive commentary
and typed text, not the modelled state. -/
def search_products (env : PageEnv) (p : CustomPersona) (search_term : String)
    (s : AState) : AState × PyResult :=
  if env.searchInputOk then
    (update_stats s true, { success := true })
  else
    (update_stats s false,
     { success := false, error := some "timeout locating search input" })

/-- The per-card loop of TiraAutomation.extract_products: enumerates the
visible cards, skips any card whose inner try block raises, strips and
truncates the name to 50 characters plus an ellipsis, and defaults an
unmatched price to 0. -/
def extract_cards : List Card → Nat → List Product
  | [], _ => []
  | c :: cs, i =>
    match c.parse with
    | some d =>
      { name := takeString (trimString d.nameText) 50 ++ "...",
        price := d.priceMatch.getD 0,
        index := i } :: extract_cards cs (i + 1)
    | none => extract_cards cs (i + 1)

/-- TiraAutomation.extract_products: reads up to 6 displayed cards,
replaces current_products wholesale and never touches the stats counters
(neither its success return nor its except branch calls _update_stats). -/
def extract_products (env : PageEnv) (p : Option CustomPersona) (s : AState) :
    AState × PyResult :=
  if env.extractThrows then
    (s, { success := false, products := some [], count := some 0 })
  else
    let visible := (env.cards.filter (fun c => c.displayed)).take 6
    let prods := extract_cards visible 0
    ({ s with current_products := prods },
     { success := true, products := some prods, count := some prods.length })

/-- TiraAutomation.hover_add_to_cart: guard on an empty list or an index at
least the length, Python indexing of current_products (a negative index
below -len raises an IndexError caught by the generic handler, whose
message is modelled verbatim), the budget gate, then the hover and the
visible add-to-bag button. -/
def hover_add_to_cart (env : PageEnv) (p : CustomPersona) (product_index : Int)
    (s : AState) : AState × PyResult :=
  if s.current_products = [] ∨ (s.current_products.length : Int) ≤ product_index then
    (s, { success := false, error := some "Invalid product index" })
  else
    match pyIndex s.current_products product_index with
    | none =>
      (update_stats s false, { success := false, error := some "list index out of range" })
    | some product =>
      if (product.price : Int) > p.budget_range.2 then
        (s, { success := false, error := some "Over budget" })
      else if env.hoverThrows then
        (update_stats s false, { success := false, error := some "hover raised" })
      else if env.addButtonVisible then
        (update_stats { s with cart_items := s.cart_items + 1 } true, { success := true })
      else
        (update_stats s false, { success := false, error := some "No add button found" })

/-- TiraAutomation.view_cart: navigates to the cart page and reads the
observed item count (advisory telemetry, independent of cart_items). -/
def view_cart (env : PageEnv) (p : CustomPersona) (s : AState) :
    AState × PyResult :=
  if env.viewCartThrows then
    (update_stats s false, { success := false, error := some "view cart raised" })
  else
    (update_stats s true, { success := true, item_count := some env.cartPageItems })

/-- TiraAutomation.remove_from_cart: clicks the first remove button when
one is present, decrementing cart_items with a clamp at 0; when none is
present it fails without a stats update. -/
def remove_from_cart (env : PageEnv) (p : CustomPersona) (s : AState) :
    AState × PyResult :=
  if env.removeBtnsPresent then
    if env.removeClickThrows then
      (update_stats s false, { success := false, error := some "remove click raised" })
    else
      (update_stats { s with cart_items := max 0 (s.cart_items - 1) } true,
       { success := true })
  else
    (s, { success := false, error := some "No items to remove" })

/-- TiraAutomation.complete_session: commentary only, always succeeds,
touches neither the counters nor the cart. -/
def complete_session (p : CustomPersona) (s : AState) : AState × PyResult :=
  (s, { success := true })

/-- InteractiveDemo._get_intelligent_search_term: random.choice over
interests plus goals (an IndexError on an empty combined list, modelled as
none), with a persona-conditioned leading word.  The drawn index comes
from the environment. -/
def get_intelligent_search_term (p : CustomPersona) (rand : Nat) : Option String :=
  match p.interests ++ p.shopping_goals with
  | [] => none
  | x :: xs =>
    let pick := (x :: xs).getD (rand % (x :: xs).length) x
    if p.decision_style = "price_focused" then some ("affordable " ++ pick)
    else if p.ptype = PersonaType.luxury_buyer then some ("premium " ++ pick)
    else if pyIn "trending" (trait_text p.personality_traits) then
      some ("trending " ++ pick)
    else some pick

/-- One iteration of the dispatch loop of InteractiveDemo._execute_task for
a single operation name.  The Bool is true when the loop breaks: after
complete_session, and in the except branch reached when the search-term
selection raises (the only statement of the loop body that can raise, all
automation methods catching their own exceptions); an unrecognized name is
skipped by the final else via continue. -/
def execStep (env : PageEnv) (p : CustomPersona) (op : String) (s : AState) :
    AState × Bool :=
  if op = "search_products" then
    match get_intelligent_search_term p env.randChoice with
    | none => (s, true)
    | some term => ((search_products env p term s).1, false)
  else if op = "extract_products" then ((extract_products env (some p) s).1, false)
  else if op = "hover_add_to_cart" then ((hover_add_to_cart env p 0 s).1, false)
  else if op = "view_cart" then ((view_cart env p s).1, false)
  else if op = "remove_from_cart" then ((remove_from_cart env p s).1, false)
  else if op = "complete_session" then ((complete_session p s).1, true)
  else (s, false)

/-- The operation loop of InteractiveDemo._execute_task over a list of
operation names. -/
def execOps (env : PageEnv) (p : CustomPersona) : List String → AState → AState
  | [], s => s
  | op :: rest, s =>
    if (execStep env p op s).2 then (execStep env p op s).1
    else execOps env p rest (execStep env p op s).1

/-- InteractiveDemo._execute_task. -/
def execute_task (env : PageEnv) (p : CustomPersona) (t : LLMTask) (s : AState) :
    AState :=
  execOps env p t.expected_functions s

/-- The task loop of InteractiveDemo.run_interactive_session: every
generated task is executed in order (the browser refresh between tasks
does not touch the modelled state). -/
def run_task_loop (env : PageEnv) (p : CustomPersona) (tasks : List LLMTask)
    (s : AState) : AState :=
  tasks.foldl (fun st t => execute_task env p t st) s

/-- The operation names recognized by the dispatch of _execute_task. -/
def isRecognized (op : String) : Bool :=
  op == "search_products" || op == "extract_products" ||
  op == "hover_add_to_cart" || op == "view_cart" ||
  op == "remove_from_cart" || op == "complete_session"

/-- The persona of the end-to-end scenario: quick_impulsive decision style,
budget 500 to 5000, interests lipstick; the traits contain no classifier
keyword, so the creation-time classification yields custom. -/
def demoPersona : CustomPersona :=
  { name := "Alex"
    ptype := determine_persona_type ["curious"] "quick_impulsive"
    budget_range := (500, 5000)
    personality_traits := ["curious"]
    interests := ["lipstick"]
    shopping_goals := ["explore products"]
    decision_style := "quick_impulsive"
    time_preference := "quick" }

/-- A page-interaction layer for the end-to-end scenario: one displayed
product card priced 1200, a working search box, a visible add-to-bag
button, one cart line on the cart page. -/
def mockEnv : PageEnv :=
  { searchInputOk := true
    cards := [{ displayed := true,
                parse := some { nameText := "Red Lipstick", priceMatch := some 1200 } }]
    addButtonVisible := true
    cartPageItems := 1
    removeBtnsPresent := true
    randChoice := 0 }

/-- A persona whose interests and shopping goals are both empty, so that
random.choice in the search-term selection raises an IndexError. -/
def noInterestsPersona : CustomPersona :=
  { name := "Void"
    ptype := PersonaType.custom
    budget_range := (500, 5000)
    personality_traits := ["curious"]
    interests := []
    shopping_goals := []
    decision_style := "quick_impulsive"
    time_preference := "quick" }

/-- An automation state whose only visible product is priced 6000, above
the demo persona's budget ceiling of 5000. -/
def overBudgetState : AState :=
  { current_products := [{ name := "Gold Serum...", price := 6000, index := 0 }] }

/-- An automation state holding exactly one affordable visible product. -/
def oneProductState : AState :=
  { current_products := [{ name := "Red Lipstick...", price := 1200, index := 0 }] }

/-- The scenario environment with an empty cart page: no remove buttons. -/
def emptyCartEnv : PageEnv := { mockEnv with removeBtnsPresent := false }

/-- Relation between a state and its successor after one loop iteration:
the attempts counter grows by at most one and the successes-bounded-by-
attempts invariant is preserved. -/
def CounterStep (s t : AState) : Prop :=
  s.actions ≤ t.actions ∧ t.actions ≤ s.actions + 1 ∧
    (s.success ≤ s.actions → t.success ≤ t.actions)

lemma counterStep_id (s : AState) : CounterStep s s :=
  ⟨Nat.le_refl _, Nat.le_succ _, fun h => h⟩

lemma counterStep_update (s : AState) (b : Bool) :
    CounterStep s (update_stats s b) := by
  refine ⟨?_, ?_, fun h => ?_⟩ <;> cases b <;> simp [update_stats] <;> omega

lemma counterStep_update_cart (s : AState) (c : Int) (b : Bool) :
    CounterStep s (update_stats { s with cart_items := c } b) := by
  refine ⟨?_, ?_, fun h => ?_⟩ <;> cases b <;> simp [update_stats] <;> omega

lemma counterStep_set_products (s : AState) (ps : List Product) :
    CounterStep s { s with current_products := ps } :=
  ⟨Nat.le_refl _, Nat.le_succ _, fun h => h⟩

lemma counterStep_search (env : PageEnv) (p : CustomPersona) (t : String)
    (s : AState) : CounterStep s (search_products env p t s).1 := by
  unfold search_products
  split_ifs <;> exact counterStep_update s _

lemma counterStep_extract (env : PageEnv) (p : Option CustomPersona)
    (s : AState) : CounterStep s (extract_products env p s).1 := by
  unfold extract_products
  split_ifs
  · exact counterStep_id s
  · exact counterStep_set_products s _

lemma counterStep_hover (env : PageEnv) (p : CustomPersona) (i : Int)
    (s : AState) : CounterStep s (hover_add_to_cart env p i s).1 := by
  unfold hover_add_to_cart
  by_cases g1 : s.current_products = [] ∨ (s.current_products.length : Int) ≤ i
  · rw [if_pos g1]; exact counterStep_id s
  · rw [if_neg g1]
    cases hpi : pyIndex s.current_products i with
    | none => simp only [hpi]; exact counterStep_update s false
    | some product =>
      simp only [hpi]
      split_ifs with g2 g3 g4
      · exact counterStep_id s
      · exact counterStep_update s false
      · exact counterStep_update_cart s _ true
      · exact counterStep_update s false

lemma counterStep_view (env : PageEnv) (p : CustomPersona) (s : AState) :
    CounterStep s (view_cart env p s).1 := by
  unfold view_cart
  split_ifs <;> exact counterStep_update s _

lemma counterStep_remove (env : PageEnv) (p : CustomPersona) (s : AState) :
    CounterStep s (remove_from_cart env p s).1 := by
  unfold remove_from_cart
  split_ifs with g1 g2
  · exact counterStep_update s false
  · exact counterStep_update_cart s _ true
  · exact counterStep_id s

lemma execStep_counterStep (env : PageEnv) (p : CustomPersona) (op : String)
    (s : AState) : CounterStep s (execStep env p op s).1 := by
  unfold execStep
  split_ifs with h1 h2 h3 h4 h5 h6
  · cases hterm : get_intelligent_search_term p env.randChoice with
    | none => simp only [hterm]; exact counterStep_id s
    | some term => simp only [hterm]; exact counterStep_search env p term s
  · exact counterStep_extract env (some p) s
  · exact counterStep_hover env p 0 s
  · exact counterStep_view env p s
  · exact counterStep_remove env p s
  · exact counterStep_id s
  · exact counterStep_id s

lemma execStep_unrecognized (env : PageEnv) (p : CustomPersona) (op : String)
    (s : AState) (h : isRecognized op = false) : execStep env p op s = (s, false) := by
  unfold isRecognized at h
  simp only [Bool.or_eq_false_iff, beq_eq_false_iff_ne, ne_eq] at h
  obtain ⟨⟨⟨⟨⟨n1, n2⟩, n3⟩, n4⟩, n5⟩, n6⟩ := h
  unfold execStep
  rw [if_neg n1, if_neg n2, if_neg n3, if_neg n4, if_neg n5, if_neg n6]

/-- C1 (counterexample): the claim that every dispatched recognized
operation increments the attempts counter by exactly one fails on the
code: one dispatched extract_products operation runs (it replaces
current_products with the extracted card) yet leaves attempts at 0,
because extract_products never calls _update_stats. -/
theorem counters_skip_extract_counterexample :
    (execOps mockEnv demoPersona ["extract_products"] initialAutomationState).actions = 0 ∧
    (execOps mockEnv demoPersona ["extract_products"] initialAutomationState).current_products ≠ [] :=
  ⟨rfl, by decide⟩

/-- C1 (amended): after N dispatched recognized operations the attempts
counter is at most N (not necessarily equal: extract_products and
complete_session never update the counters, and the early failure returns
of hover_add_to_cart and remove_from_cart skip the update as well), it
never decreases, each loop iteration adds at most 1, and the invariant
0 ≤ successes ≤ attempts is preserved throughout. -/
theorem counters_bounded_by_dispatched :
    ∀ (env : PageEnv) (p : CustomPersona) (ops : List String) (s : AState),
      s.success ≤ s.actions →
      s.actions ≤ (execOps env p ops s).actions ∧
      (execOps env p ops s).actions ≤ s.actions + (ops.filter isRecognized).length ∧
      (execOps env p ops s).success ≤ (execOps env p ops s).actions := by
  intro env p ops
  induction ops with
  | nil =>
    intro s h
    exact ⟨Nat.le_refl _, by simp [execOps], h⟩
  | cons op rest ih =>
    intro s h
    obtain ⟨hle, hub, hsucc⟩ := execStep_counterStep env p op s
    by_cases hrec : isRecognized op = true
    · have hf : ((op :: rest).filter isRecognized).length
          = (rest.filter isRecognized).length + 1 := by
        simp [List.filter_cons, hrec]
      cases hb : (execStep env p op s).2
      · have hx : execOps env p (op :: rest) s
            = execOps env p rest (execStep env p op s).1 := by
          simp [execOps, hb]
        obtain ⟨i1, i2, i3⟩ := ih (execStep env p op s).1 (hsucc h)
        rw [hx, hf]
        exact ⟨Nat.le_trans hle i1, by omega, i3⟩
      · have hx : execOps env p (op :: rest) s = (execStep env p op s).1 := by
          simp [execOps, hb]
        rw [hx, hf]
        exact ⟨hle, by omega, hsucc h⟩
    · have hstep : execStep env p op s = (s, false) :=
        execStep_unrecognized env p op s (by simpa using hrec)
      have hx : execOps env p (op :: rest) s = execOps env p rest s := by
        simp [execOps, hstep]
      have hf : ((op :: rest).filter isRecognized).length
          = (rest.filter isRecognized).length := by
        simp [List.filter_cons, Bool.not_eq_true _ ▸ hrec]
      obtain ⟨i1, i2, i3⟩ := ih s h
      rw [hx, hf]
      exact ⟨i1, i2, i3⟩

/-- C1 (witness): the counter bounds applied to the end-to-end scenario
operations from the initial state. -/
theorem counters_bounded_witness :
    initialAutomationState.actions ≤
      (execOps mockEnv demoPersona
        ["search_products", "extract_products", "hover_add_to_cart"]
        initialAutomationState).actions ∧
    (execOps mockEnv demoPersona
        ["search_products", "extract_products", "hover_add_to_cart"]
        initialAutomationState).actions ≤
      initialAutomationState.actions +
        ((["search_products", "extract_products", "hover_add_to_cart"].filter
            isRecognized).length) ∧
    (execOps mockEnv demoPersona
        ["search_products", "extract_products", "hover_add_to_cart"]
        initialAutomationState).success ≤
      (execOps mockEnv demoPersona
        ["search_products", "extract_products", "hover_add_to_cart"]
        initialAutomationState).actions :=
  counters_bounded_by_dispatched mockEnv demoPersona
    ["search_products", "extract_products", "hover_add_to_cart"]
    initialAutomationState (Nat.le_refl 0)

/-- C2 (counterexample): on the text-generation path a response that
parses to a JSON object with an empty tasks array makes
generate_shopping_tasks return the empty task list, refuting the claim
that both paths always return a non-empty sequence. -/
theorem llm_empty_tasks_counterexample :
    generate_shopping_tasks demoPersona true (some []) = some [] := rfl

/-- C2 (amended): the rule-based path returns a non-empty task list for
every persona with non-empty interests (empty interests raise an
IndexError), the text-generation path returns a non-empty list whenever
the parsed response holds at least one task entry, and a failed parse
falls back to the rule-based path; only a successfully parsed response
with an empty tasks array yields an empty result. -/
theorem generate_nonempty_amended :
    (∀ (p : CustomPersona) (x : String) (xs : List String),
        p.interests = x :: xs →
        ∃ t ts, rule_generate_tasks p = some (t :: ts)) ∧
    (∀ (p : CustomPersona) (d : TaskData) (ds : List TaskData),
        ∃ t ts, llm_generate_tasks p (some (d :: ds)) = some (t :: ts)) ∧
    (∀ p : CustomPersona, llm_generate_tasks p none = rule_generate_tasks p) := by
  refine ⟨?_, ?_, ?_⟩
  · intro p x xs h
    unfold rule_generate_tasks
    rw [h]
    dsimp only
    split_ifs <;> exact ⟨_, _, rfl⟩
  · intro p d ds
    exact ⟨_, _, rfl⟩
  · intro p
    rfl

/-- C2 (witness): the amended non-emptiness applied to the demo persona,
whose interests list is the singleton lipstick. -/
theorem generate_nonempty_witness :
    ∃ t ts, rule_generate_tasks demoPersona = some (t :: ts) :=
  generate_nonempty_amended.1 demoPersona "lipstick" [] rfl

/-- C3 (confirmed): the budget gate of hover_add_to_cart.  When the
targeted product is priced strictly above the persona's budget ceiling the
operation returns the Over budget failure and the whole state, cart
included, is unchanged; and whenever the operation reports success the
cart counter has grown by exactly one. -/
theorem budget_gate :
    (∀ (env : PageEnv) (p : CustomPersona) (s : AState) (i : Int) (prod : Product),
        ¬(s.current_products = [] ∨ (s.current_products.length : Int) ≤ i) →
        pyIndex s.current_products i = some prod →
        (prod.price : Int) > p.budget_range.2 →
        hover_add_to_cart env p i s =
          (s, { success := false, error := some "Over budget" })) ∧
    (∀ (env : PageEnv) (p : CustomPersona) (s : AState) (i : Int),
        (hover_add_to_cart env p i s).2.success = true →
        (hover_add_to_cart env p i s).1.cart_items = s.cart_items + 1) := by
  constructor
  · intro env p s i prod hguard hpi hb
    unfold hover_add_to_cart
    rw [if_neg hguard]
    simp only [hpi]
    rw [if_pos hb]
  · intro env p s i h
    unfold hover_add_to_cart at h ⊢
    by_cases g1 : s.current_products = [] ∨ (s.current_products.length : Int) ≤ i
    · rw [if_pos g1] at h; simp at h
    · rw [if_neg g1] at h ⊢
      cases hpi : pyIndex s.current_products i with
      | none => simp only [hpi] at h; simp at h
      | some prod =>
        simp only [hpi] at h ⊢
        split_ifs at h ⊢
        rfl

/-- C3 (witness): the budget gate evaluated on a state holding a single
product priced 6000 against the demo persona whose ceiling is 5000. -/
theorem budget_gate_witness :
    hover_add_to_cart mockEnv demoPersona 0 overBudgetState =
      (overBudgetState, { success := false, error := some "Over budget" }) :=
  budget_gate.1 mockEnv demoPersona overBudgetState 0
    { name := "Gold Serum...", price := 6000, index := 0 }
    (by decide) (by decide) (by decide)

/-- C4 (counterexample): in the end-to-end scenario (quick_impulsive
persona, budget 500 to 5000, interests lipstick, one mock product priced
1200) generation does yield exactly the Quick Product Discovery task and
execution does end with one cart item, but the successes counter ends at
2, not 3 as claimed, because extract_products performs no counters
update. -/
theorem quick_scenario_counterexample :
    rule_generate_tasks demoPersona = some [quick_discovery_task "lipstick"] ∧
    (run_task_loop mockEnv demoPersona [quick_discovery_task "lipstick"]
        initialAutomationState).cart_items = 1 ∧
    (run_task_loop mockEnv demoPersona [quick_discovery_task "lipstick"]
        initialAutomationState).success = 2 ∧
    (run_task_loop mockEnv demoPersona [quick_discovery_task "lipstick"]
        initialAutomationState).success ≠ 3 :=
  ⟨rfl, rfl, rfl, by decide⟩

/-- C4 (amended): the end-to-end scenario yields exactly one Quick Product
Discovery task with operations search, extract and quick-add, and its
execution ends with cart_item_count 1 and successes 2 (attempts 2): the
search and the quick-add are counted, the extract is not. -/
theorem quick_scenario_amended :
    rule_generate_tasks demoPersona = some [quick_discovery_task "lipstick"] ∧
    run_task_loop mockEnv demoPersona [quick_discovery_task "lipstick"]
        initialAutomationState =
      { current_products := [{ name := "Red Lipstick...", price := 1200, index := 0 }],
        actions := 2, success := 2, cart_items := 1 } :=
  ⟨rfl, rfl⟩

/-- C5 (counterexample): an uncaught failure is not contained to its own
operation.  With a persona whose interests and goals are both empty,
random.choice raises inside the dispatch of search_products; the except
clause of _execute_task then breaks out of the operation loop, so the
following extract_products never runs (the final state is exactly the
initial one: no counter records the failure and current_products stays
empty even though extracting would have populated it). -/
theorem uncaught_failure_counterexample :
    execOps mockEnv noInterestsPersona ["search_products", "extract_products"]
      initialAutomationState = initialAutomationState ∧
    (execOps mockEnv noInterestsPersona ["extract_products"]
      initialAutomationState).current_products ≠ [] :=
  ⟨rfl, by decide⟩

/-- C5 (amended): an uncaught failure of one operation ends the remaining
operations of that Task with no state or counter change, but never aborts
the session: the task loop always proceeds to the next Task. -/
theorem uncaught_failure_contained_amended :
    ∀ (env : PageEnv) (p : CustomPersona) (s : AState) (rest : List String),
      p.interests = [] → p.shopping_goals = [] →
      execOps env p ("search_products" :: rest) s = s ∧
      ∀ (t : LLMTask) (ts : List LLMTask),
        run_task_loop env p (t :: ts) s = run_task_loop env p ts (execute_task env p t s) := by
  intro env p s rest h1 h2
  constructor
  · have hterm : get_intelligent_search_term p env.randChoice = none := by
      unfold get_intelligent_search_term
      rw [h1, h2]
      rfl
    simp [execOps, execStep, hterm]
  · intro t ts
    rfl

/-- C5 (witness): the containment applied to the empty-interests persona
with one further operation pending. -/
theorem uncaught_failure_contained_witness :
    execOps mockEnv noInterestsPersona ("search_products" :: ["extract_products"])
      initialAutomationState = initialAutomationState :=
  (uncaught_failure_contained_amended mockEnv noInterestsPersona
      initialAutomationState ["extract_products"] rfl rfl).1

/-- C6 (confirmed): classification is a deterministic keyword scan over
the lower-cased joined traits in a fixed priority order: any budget
keyword wins outright, a luxury keyword wins only when no budget keyword
occurs, a persona with none of the six keyword groups is custom, and in
particular the traits budget and luxury together classify as
budget-shopper. -/
theorem classify_budget_priority :
    (∀ (traits : List String) (d : String),
        hitsAny budget_words (trait_text traits) = true →
        determine_persona_type traits d = PersonaType.budget_shopper) ∧
    (∀ (traits : List String) (d : String),
        hitsAny budget_words (trait_text traits) = false →
        hitsAny luxury_words (trait_text traits) = true →
        determine_persona_type traits d = PersonaType.luxury_buyer) ∧
    (∀ (traits : List String) (d : String),
        hitsAny budget_words (trait_text traits) = false →
        hitsAny luxury_words (trait_text traits) = false →
        hitsAny indecisive_words (trait_text traits) = false →
        hitsAny beauty_words (trait_text traits) = false →
        hitsAny skincare_words (trait_text traits) = false →
        hitsAny gift_words (trait_text traits) = false →
        determine_persona_type traits d = PersonaType.custom) ∧
    (∀ d : String,
        determine_persona_type ["budget", "luxury"] d = PersonaType.budget_shopper) := by
  refine ⟨?_, ?_, ?_, ?_⟩
  · intro traits d h
    simp [determine_persona_type, h]
  · intro traits d h1 h2
    simp [determine_persona_type, h1, h2]
  · intro traits d h1 h2 h3 h4 h5 h6
    simp [determine_persona_type, h1, h2, h3, h4, h5, h6]
  · intro d
    rfl

/-- C6 (witness): the priority rules evaluated on concrete trait lists. -/
theorem classify_budget_priority_witness :
    determine_persona_type ["budget", "luxury"] "research_heavy" = PersonaType.budget_shopper ∧
    determine_persona_type ["luxury"] "research_heavy" = PersonaType.luxury_buyer :=
  ⟨classify_budget_priority.1 ["budget", "luxury"] "research_heavy" (by decide),
   classify_budget_priority.2.1 ["luxury"] "research_heavy" (by decide) (by decide)⟩

/-- C7 (confirmed): dispatching complete_session breaks out of the
operation loop at once, so the operations after it in the same Task are
never executed, yet the task loop of the session always continues with
the next Task. -/
theorem complete_session_breaks :
    ∀ (env : PageEnv) (p : CustomPersona) (s : AState) (pre rest : List String),
      execOps env p (pre ++ "complete_session" :: rest) s =
        execOps env p (pre ++ ["complete_session"]) s ∧
      ∀ (t : LLMTask) (ts : List LLMTask),
        run_task_loop env p (t :: ts) s = run_task_loop env p ts (execute_task env p t s) := by
  intro env p s pre rest
  constructor
  · induction pre generalizing s with
    | nil => rfl
    | cons a pre' ih =>
      simp only [List.cons_append, execOps]
      cases hb : (execStep env p a s).2
      · simp only [hb, Bool.false_eq_true, if_false]
        exact ih (execStep env p a s).1
      · simp [hb]
  · intro t ts
    rfl

/-- C8 (confirmed): remove_from_cart on a page with no cart lines fails
with the nothing-to-remove outcome and leaves the whole state (cart count
included) unchanged, so an empty cart stays at 0; and in every state the
decrement is clamped, keeping cart_item_count non-negative. -/
theorem remove_from_cart_empty_and_clamp :
    ∀ (env : PageEnv) (p : CustomPersona) (s : AState),
      (env.removeBtnsPresent = false →
        remove_from_cart env p s =
          (s, { success := false, error := some "No items to remove" })) ∧
      (env.removeBtnsPresent = false → s.cart_items = 0 →
        (remove_from_cart env p s).1.cart_items = 0) ∧
      (0 ≤ s.cart_items → 0 ≤ (remove_from_cart env p s).1.cart_items) := by
  intro env p s
  refine ⟨?_, ?_, ?_⟩
  · intro h
    simp [remove_from_cart, h]
  · intro h h0
    simp [remove_from_cart, h, h0]
  · intro h
    unfold remove_from_cart
    split_ifs with g1 g2
    · simpa [update_stats] using h
    · simp [update_stats]
    · exact h

/-- C8 (witness): removal attempted from the initial state against the
empty-cart page. -/
theorem remove_from_cart_witness :
    remove_from_cart emptyCartEnv demoPersona initialAutomationState =
      (initialAutomationState, { success := false, error := some "No items to remove" }) :=
  (remove_from_cart_empty_and_clamp emptyCartEnv demoPersona initialAutomationState).1 rfl

/-- C9 (confirmed): the classification result does not depend on the
decision_style argument, which _determine_persona_type accepts but never
reads. -/
theorem classify_independent_of_decision_style :
    ∀ (traits : List String) (d₁ d₂ : String),
      determine_persona_type traits d₁ = determine_persona_type traits d₂ :=
  fun _ _ _ => rfl

/-- C10 (counterexample): it is not true that every negative index on a
non-empty product list targets a product.  With one visible affordable
product, an everything-permitting page and index -2, hover_add_to_cart
fails (the Python list access raises an IndexError caught by the generic
handler, with no cart change), while index -1 on the same state
succeeds. -/
theorem negative_index_counterexample :
    (hover_add_to_cart mockEnv demoPersona (-2) oneProductState).2.success = false ∧
    (hover_add_to_cart mockEnv demoPersona (-2) oneProductState).2.error =
      some "list index out of range" ∧
    (hover_add_to_cart mockEnv demoPersona (-2) oneProductState).1.cart_items = 0 ∧
    (hover_add_to_cart mockEnv demoPersona (-1) oneProductState).2.success = true := by
  exact ⟨rfl, rfl, rfl, rfl⟩

/-- C10 (amended): the explicit validity check only rejects indices at
least the length; a negative index no smaller than -len is not rejected
by it and behaves exactly like the corresponding non-negative index
len + i, targeting a product from the end of the list, while an index
below -len raises an IndexError handled as a generic failure. -/
theorem negative_index_amended :
    ∀ (env : PageEnv) (p : CustomPersona) (s : AState) (i : Int),
      s.current_products ≠ [] → i < 0 →
      -(s.current_products.length : Int) ≤ i →
      hover_add_to_cart env p i s =
        hover_add_to_cart env p (i + s.current_products.length) s := by
  intro env p s i hne hneg hge
  have hlen : 0 < (s.current_products.length : Int) := by
    cases hcp : s.current_products with
    | nil => exact absurd hcp hne
    | cons a l => simp [hcp]
  have hA : ¬(s.current_products = [] ∨ (s.current_products.length : Int) ≤ i) := by
    rintro (h | h)
    · exact hne h
    · omega
  have hB : ¬(s.current_products = [] ∨
      (s.current_products.length : Int) ≤ i + s.current_products.length) := by
    rintro (h | h)
    · exact hne h
    · omega
  have hpi : pyIndex s.current_products i =
      pyIndex s.current_products (i + s.current_products.length) := by
    have g1 : ¬(0 : Int) ≤ i := by omega
    have g2 : ¬((s.current_products.length : Int) + i < 0) := by omega
    have g3 : (0 : Int) ≤ i + s.current_products.length := by omega
    unfold pyIndex
    rw [if_neg g1, if_neg g2, if_pos g3]
    congr 1
    omega
  unfold hover_add_to_cart
  rw [if_neg hA, if_neg hB, hpi]

/-- C10 (witness): index -1 on the one-product state coincides with
index 0. -/
theorem negative_index_witness :
    hover_add_to_cart mockEnv demoPersona (-1) oneProductState =
      hover_add_to_cart mockEnv demoPersona
        (-1 + oneProductState.current_products.length) oneProductState :=
  negative_index_amended mockEnv demoPersona oneProductState (-1)
    (by decide) (by decide) (by decide)

end LLMShop
